import Mathlib

/-!
A shallow embedding of src/src/libstd/run.rs (the Rust std::run module:
spawning and managing child processes), together with theorems checking the
module's specification against the code.

The module's own code (struct Process, finish, finish_with_output, destroy,
force_destroy, process_status, process_output, ProcessOptions, rtify) is
translated directly.  The pieces it delegates to — io::process::Process
(spawn, wait, signal), io::Reader::read_to_end and io::ignore_io_error —
live outside this repository, so they are modelled from the spec where a
claim depends on them; each such definition carries a doc comment saying so.

Concurrency is embedded by making the controller's sequence of actions
explicit: every lifecycle operation returns, besides its result and the
updated handle, the list of controller-visible events in program order
(close stdin, spawn a drain worker, enter the wait, perform the OS-level
wait, receive a tagged drain result, send a signal).  The arrival order of
the two drain-worker results on the shared channel is a Bool parameter
(errFirst), covering both interleavings.
-/

namespace Run

/-- Byte sequences (~[u8] in the source). -/
abbrev Bytes := List Nat

/-- Exit disposition of a process (io::process::ProcessExit): a normal exit
code or termination by signal.  Treated as opaque data by this module. -/
inductive ProcessExit
  | exitStatus : Nat → ProcessExit
  | exitSignal : Nat → ProcessExit
deriving DecidableEq, Repr

/-- An I/O condition that a read may raise (io::io_error kinds, abstracted). -/
inductive IOCondition
  | closedPipe
  | otherError
deriving DecidableEq, Repr

/-- Modelled from the spec: the parent-side endpoint of a stream pipe
(io::pipe::PipeStream, not under src/).  contents are the bytes obtainable
from it up to end-of-stream; condition is an I/O condition that reading it
would signal, if any. -/
structure PipeEnd where
  contents : Bytes
  condition : Option IOCondition
deriving DecidableEq, Repr

/-- Modelled from the spec: io::Reader::read_to_end under an optional
io::ignore_io_error guard (both not under src/).  Without the guard an I/O
condition on the stream is signalled (Except.error); with the guard active
the condition is suppressed and the bytes read so far are returned as data,
so a closed stream reads as end-of-stream. -/
def readToEnd (guardActive : Bool) (e : PipeEnd) : Except IOCondition Bytes :=
  match e.condition with
  | some c => if guardActive then Except.ok e.contents else Except.error c
  | none => Except.ok e.contents

/-- Termination signals sent to a process (io::process signal constants). -/
inductive Signal
  | pleaseExit
  | mustDie
deriving DecidableEq, Repr

/-- Controller-visible events, listed in program order by each operation. -/
inductive Event
  | closedInput
  | spawnedWorker (tag : Nat)
  | enteredWait
  | osWaitCall
  | receivedResult (tag : Nat)
  | sentSignal (s : Signal)
deriving DecidableEq, Repr

/-- Modelled from the spec: the inner io::process::Process (not under src/).
io0/io1/io2 are the parent-side stream endpoints for stdin/stdout/stderr
(None when inherited or already taken, mirroring the Option slots of the
inner io array); exitResult is unset until the process has been waited on
at least once and cached afterwards; osExit is the exit disposition the OS
will report when the process is actually waited on. -/
structure InnerProcess where
  pid : Int
  io0 : Option PipeEnd
  io1 : Option PipeEnd
  io2 : Option PipeEnd
  exitResult : Option ProcessExit
  osExit : ProcessExit
deriving DecidableEq, Repr

/-- Modelled from the spec: io::process::Process::wait (not under src/).
If exitResult is already cached it is returned without re-invoking the OS
wait (no osWaitCall event); otherwise the OS wait is performed, the result
cached, and returned. -/
def InnerProcess.wait (p : InnerProcess) : ProcessExit × InnerProcess × List Event :=
  match p.exitResult with
  | some r => (r, p, [])
  | none => (p.osExit, { p with exitResult := some p.osExit }, [Event.osWaitCall])

/-- A value representing a child process (struct Process in run.rs). -/
structure Process where
  inner : InnerProcess
deriving DecidableEq, Repr

/-- Per-stream stdio configuration handed to the OS layer
(io::process::StdioContainer). -/
inductive StdioContainer
  | inheritFd (fd : Int)
  | createPipe (readable writable : Bool)
deriving DecidableEq, Repr

/-- Options that can be given when starting a Process (ProcessOptions in
run.rs).  env None means inherit the parent's environment; dir None means
inherit the parent's working directory; a None fd means a fresh pipe. -/
structure ProcessOptions where
  env : Option (List (String × String))
  dir : Option String
  in_fd : Option Int
  out_fd : Option Int
  err_fd : Option Int
deriving DecidableEq, Repr

/-- ProcessOptions::new(): None in every field. -/
def ProcessOptions.new : ProcessOptions :=
  { env := none, dir := none, in_fd := none, out_fd := none, err_fd := none }

/-- The output of a finished process (ProcessOutput in run.rs). -/
structure ProcessOutput where
  status : ProcessExit
  output : Bytes
  error : Bytes
deriving DecidableEq, Repr

/-- The resolved configuration passed to the OS process layer
(io::process::ProcessConfig). -/
structure ProcessConfig where
  program : String
  args : List String
  env : Option (List (String × String))
  cwd : Option String
  io : List StdioContainer
deriving DecidableEq, Repr

/-- rtify from Process::new: an explicit fd is inherited, an absent fd
becomes CreatePipe(input, !input). -/
def rtify (fd : Option Int) (input : Bool) : StdioContainer :=
  match fd with
  | some fd => StdioContainer.inheritFd fd
  | none => StdioContainer.createPipe input (!input)

/-- The rtconfig value built by Process::new from prog, args and options. -/
def Process.newConfig (prog : String) (args : List String)
    (options : ProcessOptions) : ProcessConfig :=
  { program := prog
    args := args
    env := options.env
    cwd := options.dir
    io := [rtify options.in_fd true, rtify options.out_fd false,
           rtify options.err_fd false] }

/-- Process::new.  osSpawn stands for io::process::Process::new (the OS
process-creation call, not under src/): it either produces an inner process
or fails.  On failure no handle is produced. -/
def Process.new (osSpawn : ProcessConfig → Option InnerProcess)
    (prog : String) (args : List String) (options : ProcessOptions) :
    Option Process :=
  match osSpawn (Process.newConfig prog args options) with
  | some inner => some { inner := inner }
  | none => none

/-- Process::close_input: self.inner.io[0].take(). -/
def Process.close_input (p : Process) : Process × List Event :=
  ({ inner := { p.inner with io0 := none } }, [Event.closedInput])

/-- Process::close_outputs: self.inner.io[1].take(); self.inner.io[2].take(). -/
def Process.close_outputs (p : Process) : Process :=
  { inner := { p.inner with io1 := none, io2 := none } }

/-- Process::finish: self.inner.wait().  The enteredWait event marks the
controller entering the wait; osWaitCall appears only when the OS wait is
actually re-invoked. -/
def Process.finish (p : Process) : ProcessExit × Process × List Event :=
  match p.inner.wait with
  | (r, inner, tr) => (r, { inner := inner }, Event.enteredWait :: tr)

/-- One drain worker of finish_with_output: reads its Option stream under
the ignore_io_error guard and produces its tagged result (streamId, bytes);
an absent stream yields (tag, []). -/
def drainWorker (tag : Nat) (stream : Option PipeEnd) : Nat × Bytes :=
  match stream with
  | some e =>
      (tag, match readToEnd true e with
            | Except.ok bs => bs
            | Except.error _ => [])
  | none => (tag, [])

/-- The demultiplexer of finish_with_output: the match on
(p.recv(), p.recv()) pairing the two tagged results into (errs, outs).
The fail! arm on unexpected tag pairs is the none case. -/
def demux : Nat × Bytes → Nat × Bytes → Option (Bytes × Bytes)
  | (1, o), (2, e) => some (e, o)
  | (2, e), (1, o) => some (e, o)
  | _, _ => none

/-- Process::finish_with_output.  Closes stdin, takes the stdout/stderr
endpoints, spawns the two drain workers (stderr worker with tag 2 first,
then the stdout worker with tag 1, as in the source), calls finish, then
receives the two tagged results from the shared channel and demultiplexes
them.  errFirst selects which worker's result arrives first; the fail! arm
surfaces as a none result.  The trace lists the controller's actions in
program order. -/
def Process.finish_with_output (errFirst : Bool) (p : Process) :
    Option ProcessOutput × Process × List Event :=
  match p.close_input with
  | (pClosed, trClose) =>
    let output := pClosed.inner.io1
    let error := pClosed.inner.io2
    let pTaken : Process := { inner := { pClosed.inner with io1 := none, io2 := none } }
    let msgErr := drainWorker 2 error
    let msgOut := drainWorker 1 output
    match pTaken.finish with
    | (status, pDone, trWait) =>
      let m1 := if errFirst then msgErr else msgOut
      let m2 := if errFirst then msgOut else msgErr
      let result := (demux m1 m2).map fun eo =>
        { status := status, output := eo.2, error := eo.1 }
      (result, pDone,
       trClose ++ [Event.spawnedWorker 2, Event.spawnedWorker 1] ++ trWait ++
         [Event.receivedResult m1.1, Event.receivedResult m2.1])

/-- Process::destroy: send PleaseExitSignal, then finish. -/
def Process.destroy (p : Process) : Process × List Event :=
  match p.finish with
  | (_, pDone, tr) => (pDone, Event.sentSignal Signal.pleaseExit :: tr)

/-- Process::force_destroy: send MustDieSignal, then finish. -/
def Process.force_destroy (p : Process) : Process × List Event :=
  match p.finish with
  | (_, pDone, tr) => (pDone, Event.sentSignal Signal.mustDie :: tr)

def STDIN_FILENO : Int := 0
def STDOUT_FILENO : Int := 1
def STDERR_FILENO : Int := 2

/-- The ProcessOptions literal built inside process_status: no env or dir
override, the three fds duplicated from the parent's standard streams
(dup stands for libc::dup). -/
def statusOptions (dup : Int → Int) : ProcessOptions :=
  { env := none
    dir := none
    in_fd := some (dup STDIN_FILENO)
    out_fd := some (dup STDOUT_FILENO)
    err_fd := some (dup STDERR_FILENO) }

/-- process_status: spawn with inherited (duplicated) standard streams and
finish; None if the child could not be started. -/
def process_status (osSpawn : ProcessConfig → Option InnerProcess)
    (dup : Int → Int) (prog : String) (args : List String) :
    Option ProcessExit :=
  match Process.new osSpawn prog args (statusOptions dup) with
  | some p => some (p.finish).1
  | none => none

/-- process_output: spawn with ProcessOptions::new() (all streams piped)
and finish_with_output; None if the child could not be started. -/
def process_output (osSpawn : ProcessConfig → Option InnerProcess)
    (errFirst : Bool) (prog : String) (args : List String) :
    Option ProcessOutput :=
  match Process.new osSpawn prog args ProcessOptions.new with
  | some p => (p.finish_with_output errFirst).1
  | none => none

/-- Is this event the receipt of a tagged drain result? -/
def isReceivedEvent : Event → Bool
  | Event.receivedResult _ => true
  | _ => false

/-- Is this event the sending of a termination signal? -/
def isSignalEvent : Event → Bool
  | Event.sentSignal _ => true
  | _ => false

/-- How many tagged drain results are received strictly before the wait for
process termination is first entered. -/
def receivedBeforeWait (tr : List Event) : Nat :=
  ((tr.takeWhile fun e => !(e == Event.enteredWait)).filter isReceivedEvent).length

/-- Total number of tagged drain results received in a trace. -/
def receivedTotal (tr : List Event) : Nat :=
  (tr.filter isReceivedEvent).length

/-- Is this event the spawning of a drain worker? -/
def isSpawnedEvent : Event → Bool
  | Event.spawnedWorker _ => true
  | _ => false

/-- How many drain workers are spawned strictly before the wait for process
termination is first entered. -/
def spawnedBeforeWait (tr : List Event) : Nat :=
  ((tr.takeWhile fun e => !(e == Event.enteredWait)).filter isSpawnedEvent).length

/-- Total number of drain workers spawned in a trace. -/
def spawnedTotal (tr : List Event) : Nat :=
  (tr.filter isSpawnedEvent).length

/-- A sample live process handle with all three streams piped and not yet
waited on; used as the concrete input of witnesses and counterexamples. -/
def sampleProc : Process :=
  { inner :=
    { pid := 42
      io0 := some { contents := [], condition := none }
      io1 := some { contents := [104, 105], condition := none }
      io2 := some { contents := [33], condition := none }
      exitResult := none
      osExit := ProcessExit.exitStatus 0 } }

/-- An OS spawn that always fails (process creation denied). -/
def failSpawn : ProcessConfig → Option InnerProcess := fun _ => none

/-! ## Helper lemmas -/

theorem readToEnd_guarded (e : PipeEnd) : readToEnd true e = Except.ok e.contents := by
  unfold readToEnd
  cases e.condition <;> simp

theorem drainWorker_some (t : Nat) (e : PipeEnd) :
    drainWorker t (some e) = (t, e.contents) := by
  simp [drainWorker, readToEnd_guarded]

theorem drainWorker_none (t : Nat) : drainWorker t none = (t, []) := rfl

/-! ## Theorems for the claims -/

/-- C3: finish is idempotent with respect to the exit status: a second call
returns the same status and does not re-invoke the OS wait (no osWaitCall
event in its trace), so it does not block. -/
theorem finish_idempotent (p : Process) :
    ((p.finish).2.1.finish).1 = (p.finish).1 ∧
    Event.osWaitCall ∉ ((p.finish).2.1.finish).2.2 := by
  rcases p with ⟨⟨pid, i0, i1, i2, er, os⟩⟩
  cases er <;> simp [Process.finish, InnerProcess.wait]

/-- C8: finish leaves the three stream slots exactly as they were before
the call; it only waits for termination. -/
theorem finish_frame (p : Process) :
    (p.finish).2.1.inner.io0 = p.inner.io0 ∧
    (p.finish).2.1.inner.io1 = p.inner.io1 ∧
    (p.finish).2.1.inner.io2 = p.inner.io2 := by
  rcases p with ⟨⟨pid, i0, i1, i2, er, os⟩⟩
  cases er <;> simp [Process.finish, InnerProcess.wait]

/-- C4: regardless of which drain result arrives first on the shared
channel, the returned ProcessOutput has the tag-1 (stdout) bytes in its
output field and the tag-2 (stderr) bytes in its error field: both arrival
orders yield the same result. -/
theorem finish_with_output_demux (p : Process) (b : Bool) :
    ((p.finish_with_output b).1.map ProcessOutput.output) =
      some ((drainWorker 1 p.inner.io1).2) ∧
    ((p.finish_with_output b).1.map ProcessOutput.error) =
      some ((drainWorker 2 p.inner.io2).2) ∧
    (p.finish_with_output true).1 = (p.finish_with_output false).1 := by
  rcases p with ⟨⟨pid, i0, i1, i2, er, os⟩⟩
  cases b <;> cases i1 <;> cases i2 <;> cases er <;>
    simp [Process.finish_with_output, Process.close_input, Process.finish,
          InnerProcess.wait, drainWorker_some, drainWorker_none, demux]

/-- C5: the fail! arm of the demultiplexer is unreachable: since one worker
sends tag 2 exactly once and the other sends tag 1 exactly once, the two
received results carry the tag pair (1,2) or (2,1) in either arrival order,
demux succeeds, and finish_with_output never hits the fatal branch. -/
theorem demux_fail_unreachable (outS errS : Option PipeEnd) (b : Bool) (p : Process) :
    (((if b then drainWorker 2 errS else drainWorker 1 outS).1 = 1 ∧
      (if b then drainWorker 1 outS else drainWorker 2 errS).1 = 2) ∨
     ((if b then drainWorker 2 errS else drainWorker 1 outS).1 = 2 ∧
      (if b then drainWorker 1 outS else drainWorker 2 errS).1 = 1)) ∧
    (demux (if b then drainWorker 2 errS else drainWorker 1 outS)
           (if b then drainWorker 1 outS else drainWorker 2 errS)).isSome ∧
    (p.finish_with_output b).1.isSome := by
  rcases p with ⟨⟨pid, i0, i1, i2, er, os⟩⟩
  cases b <;> cases outS <;> cases errS <;> cases i1 <;> cases i2 <;> cases er <;>
    simp [Process.finish_with_output, Process.close_input, Process.finish,
          InnerProcess.wait, drainWorker_some, drainWorker_none, demux]

/-- C6: a drain worker treats a closed or absent stream as end-of-stream,
not an error: an absent (None) endpoint yields the empty byte sequence, and
an endpoint carrying an I/O condition still yields its bytes under the
drain guard (while the same read without the guard would signal the
condition). -/
theorem drain_absent_and_suppressed (t : Nat) :
    drainWorker t none = (t, []) ∧
    (∀ (e : PipeEnd) (c : IOCondition), e.condition = some c →
      drainWorker t (some e) = (t, e.contents)) ∧
    (∀ (e : PipeEnd) (c : IOCondition), e.condition = some c →
      readToEnd false e = Except.error c) := by
  refine ⟨rfl, fun e c h => drainWorker_some t e, fun e c h => ?_⟩
  unfold readToEnd
  rw [h]
  simp

/-- Witness for C6 at tag 2 and a closed empty stream. -/
theorem drain_absent_and_suppressed_witness :
    drainWorker 2 none = (2, []) ∧
    drainWorker 2 (some { contents := [], condition := some IOCondition.closedPipe })
      = (2, []) ∧
    readToEnd false { contents := [], condition := some IOCondition.closedPipe }
      = Except.error IOCondition.closedPipe :=
  ⟨(drain_absent_and_suppressed 2).1,
   (drain_absent_and_suppressed 2).2.1 _ IOCondition.closedPipe rfl,
   (drain_absent_and_suppressed 2).2.2 _ IOCondition.closedPipe rfl⟩

/-- C1 counterexample: on a concrete live handle, the controller receives
zero (not both) drain results before entering the wait for process
termination: in the source the call to finish precedes both channel
receives. -/
theorem recv_before_wait_cex :
    ¬ receivedBeforeWait ((sampleProc.finish_with_output true).2.2) = 2 := by
  decide

/-- C1 amended: the controller enters the wait for the process's exit
status after spawning both drain workers but before receiving either
tagged drain result: exactly two workers are spawned and both spawns
precede the wait entry, and exactly two drain results are received, all
after the wait is entered and before the call returns. -/
theorem wait_entered_before_recv (p : Process) (b : Bool) :
    spawnedBeforeWait ((p.finish_with_output b).2.2) = 2 ∧
    spawnedTotal ((p.finish_with_output b).2.2) = 2 ∧
    receivedBeforeWait ((p.finish_with_output b).2.2) = 0 ∧
    receivedTotal ((p.finish_with_output b).2.2) = 2 ∧
    Event.enteredWait ∈ (p.finish_with_output b).2.2 := by
  rcases p with ⟨⟨pid, i0, i1, i2, er, os⟩⟩
  cases b <;> cases i1 <;> cases i2 <;> cases er <;>
    simp [Process.finish_with_output, Process.close_input, Process.finish,
          InnerProcess.wait, drainWorker_some, drainWorker_none,
          receivedBeforeWait, receivedTotal, isReceivedEvent,
          spawnedBeforeWait, spawnedTotal, isSpawnedEvent,
          List.takeWhile, List.filter]

/-- C2: once finish_with_output has been called, a second call returns
empty stdout and stderr byte sequences (not an error) together with the
same exit status as the first call. -/
theorem finish_with_output_second (p : Process) (b1 b2 : Bool)
    (out1 : ProcessOutput) (h : (p.finish_with_output b1).1 = some out1) :
    (((p.finish_with_output b1).2.1).finish_with_output b2).1 =
      some { status := out1.status, output := [], error := [] } := by
  rcases p with ⟨⟨pid, i0, i1, i2, er, os⟩⟩
  cases b1 <;> cases b2 <;> cases i1 <;> cases i2 <;> cases er <;>
    simp_all [Process.finish_with_output, Process.close_input, Process.finish,
      InnerProcess.wait, drainWorker_some, drainWorker_none, demux] <;>
    (subst h; rfl)

/-- Witness for C2 on a concrete live handle with piped streams. -/
theorem finish_with_output_second_witness :
    (sampleProc.finish_with_output true).1 =
      some { status := ProcessExit.exitStatus 0, output := [104, 105], error := [33] } ∧
    ((sampleProc.finish_with_output true).2.1.finish_with_output false).1 =
      some { status := ProcessExit.exitStatus 0, output := [], error := [] } :=
  ⟨by decide,
   finish_with_output_second sampleProc true false
     { status := ProcessExit.exitStatus 0, output := [104, 105], error := [33] }
     (by decide)⟩

/-- C9: destroy sends exactly the graceful PleaseExitSignal and then calls
finish, and force_destroy sends exactly the unconditional MustDieSignal and
then calls finish; in both traces the signal is the first event, it is the
only signal event, and the wait follows. -/
theorem destroy_signal_then_finish (p : Process) :
    ((p.destroy).2 = Event.sentSignal Signal.pleaseExit :: (p.finish).2.2 ∧
     (p.destroy).2.filter isSignalEvent = [Event.sentSignal Signal.pleaseExit] ∧
     (p.destroy).2.head? = some (Event.sentSignal Signal.pleaseExit) ∧
     Event.enteredWait ∈ (p.destroy).2 ∧
     (p.destroy).1 = (p.finish).2.1) ∧
    ((p.force_destroy).2 = Event.sentSignal Signal.mustDie :: (p.finish).2.2 ∧
     (p.force_destroy).2.filter isSignalEvent = [Event.sentSignal Signal.mustDie] ∧
     (p.force_destroy).2.head? = some (Event.sentSignal Signal.mustDie) ∧
     Event.enteredWait ∈ (p.force_destroy).2 ∧
     (p.force_destroy).1 = (p.finish).2.1) := by
  rcases p with ⟨⟨pid, i0, i1, i2, er, os⟩⟩
  cases er <;>
    simp [Process.destroy, Process.force_destroy, Process.finish,
          InnerProcess.wait, isSignalEvent, List.filter]

/-- C7: when the underlying OS process creation fails, Process.new returns
no handle, and process_status and process_output likewise return none. -/
theorem spawn_failure_no_handle (osSpawn : ProcessConfig → Option InnerProcess)
    (dup : Int → Int) (b : Bool) (prog : String) (args : List String)
    (options : ProcessOptions)
    (h1 : osSpawn (Process.newConfig prog args options) = none)
    (h2 : osSpawn (Process.newConfig prog args (statusOptions dup)) = none)
    (h3 : osSpawn (Process.newConfig prog args ProcessOptions.new) = none) :
    Process.new osSpawn prog args options = none ∧
    process_status osSpawn dup prog args = none ∧
    process_output osSpawn b prog args = none := by
  refine ⟨?_, ?_, ?_⟩ <;>
    simp [Process.new, process_status, process_output, h1, h2, h3]

/-- Witness for C7 with an always-failing OS spawn. -/
theorem spawn_failure_no_handle_witness :
    failSpawn (Process.newConfig "prog" [] ProcessOptions.new) = none ∧
    (Process.new failSpawn "prog" [] ProcessOptions.new = none ∧
     process_status failSpawn id "prog" [] = none ∧
     process_output failSpawn true "prog" [] = none) :=
  ⟨rfl, spawn_failure_no_handle failSpawn id true "prog" [] ProcessOptions.new
          rfl rfl rfl⟩

/-- C10: both convenience launchers spawn with env = none and dir = none,
so the configuration handed to the OS layer carries no environment or
working-directory override: the child inherits both from the parent. -/
theorem launchers_inherit_env_and_dir (dup : Int → Int) (prog : String)
    (args : List String) :
    (statusOptions dup).env = none ∧ (statusOptions dup).dir = none ∧
    ProcessOptions.new.env = none ∧ ProcessOptions.new.dir = none ∧
    (Process.newConfig prog args (statusOptions dup)).env = none ∧
    (Process.newConfig prog args (statusOptions dup)).cwd = none ∧
    (Process.newConfig prog args ProcessOptions.new).env = none ∧
    (Process.newConfig prog args ProcessOptions.new).cwd = none :=
  ⟨rfl, rfl, rfl, rfl, rfl, rfl, rfl, rfl⟩

end Run
